import Mathlib

/-!
Verification of the `secure-mcp-auditor` repository: a fact-check auditor
(`src/fact_check_auditor.py`) and a directory scanner (`src/file_scanner.py`).
The Python code is shallowly embedded: strings are Lean `String`s, the file
system is explicit state, numeric formatting uses exact rational arithmetic
(all values arising here are dyadic rationals, represented exactly by Python
floats, so the rational model agrees with the float computation).
-/

namespace Auditor

/-! ### Character and string helpers (embedding Python's str methods) -/

/-- Python's `str.lower()` on a character, for the ASCII range. -/
def asciiLowerChar (c : Char) : Char :=
  if 'A' ≤ c ∧ c ≤ 'Z' then Char.ofNat (c.toNat + 32) else c

/-- Python's `str.upper()` on a character, for the ASCII range. -/
def asciiUpperChar (c : Char) : Char :=
  if 'a' ≤ c ∧ c ≤ 'z' then Char.ofNat (c.toNat - 32) else c

/-- Python's `str.lower()` (ASCII). -/
def asciiLower (s : String) : String := String.mk (s.data.map asciiLowerChar)

/-- Python's `str.upper()` (ASCII). -/
def asciiUpper (s : String) : String := String.mk (s.data.map asciiUpperChar)

/-- The characters matched by Python's `\s` regex class and stripped by
`str.strip()` (ASCII whitespace). -/
def isPySpace (c : Char) : Bool :=
  c == ' ' || c == '\t' || c == '\n' || c == '\x0d' || c == '\x0b' || c == '\x0c'

/-- Python's `str.strip()` on a character list. -/
def stripChars (l : List Char) : List Char :=
  ((l.dropWhile isPySpace).reverse.dropWhile isPySpace).reverse

/-- Decimal digits of a natural number, via bounded recursion on a fuel
argument (the embedding of Python's `str(int)` / f-string integer rendering). -/
def natDigitsAux : Nat → Nat → List Char
  | 0, _ => []
  | fuel + 1, n =>
    if n < 10 then [Char.ofNat (48 + n)]
    else natDigitsAux fuel (n / 10) ++ [Char.ofNat (48 + n % 10)]

/-- Decimal rendering of a natural number (Python's `str(int)`). -/
def natToStr (n : Nat) : String := String.mk (natDigitsAux (n + 1) n)

/-! ### Regex search (the three literal patterns and the `risk level:` one)

The auditor uses `re.search` with patterns of the form `LITERAL([^.]+)` and
`risk level:\s*([^.]+)`. `re.search` tries each start position from the left;
at a position the literal must occur verbatim, and the capture group `[^.]+`
greedily takes the maximal nonempty run of non-period characters (for the
risk pattern, `\s*` first greedily eats whitespace, backtracking one
whitespace character when the run after it would be empty). -/

/-- Does `lit` occur verbatim at the front of `s`? -/
def startsWithL : List Char → List Char → Bool
  | [], _ => true
  | _ :: _, [] => false
  | a :: as, b :: bs => a == b && startsWithL as bs

/-- Capture of `([^.]+)` at the front of `rest`: the maximal nonempty run of
non-period characters, or failure. -/
def captureNonPeriod (rest : List Char) : Option (List Char) :=
  let cap := rest.takeWhile (fun c => c != '.')
  if cap.isEmpty then none else some cap

/-- Capture of `\s*([^.]+)` at the front of `rest`: greedily skip whitespace,
then take the maximal nonempty run of non-period characters; when that run is
empty the regex engine backtracks `\s*` by one character, so the capture is
the last whitespace character. Fails only when no nonempty capture exists. -/
def captureWsNonPeriod (rest : List Char) : Option (List Char) :=
  let w := rest.takeWhile isPySpace
  let t := rest.dropWhile isPySpace
  let cap := t.takeWhile (fun c => c != '.')
  if !cap.isEmpty then some cap
  else if !w.isEmpty then some (w.drop (w.length - 1))
  else none

/-- `re.search` for a pattern `lit` followed by a capture described by `cap`:
try every start position from the left, return the leftmost capture. -/
def searchWith (cap : List Char → Option (List Char)) (lit : List Char) :
    List Char → Option (List Char)
  | [] => none
  | c :: rest =>
    match (if startsWithL lit (c :: rest) then cap ((c :: rest).drop lit.length) else none) with
    | some r => some r
    | none => searchWith cap lit rest

/-! ### The fact-check auditor -/

/-- The four audit statuses of `FactCheckAuditor.audit`. -/
inductive Status where
  | MATCH
  | MISMATCH
  | CRITICAL_WARNING
  | DATA_MISSING
deriving DecidableEq, Repr

/-- One entry of the `results` list built by `FactCheckAuditor.audit`. -/
structure AuditResult where
  category : String
  expected : String
  actual : Option String
  status : Status
deriving DecidableEq, Repr

/-- `FactCheckAuditor.__init__`: the hardcoded expected values, in dict
insertion order. -/
def expected_values : List (String × String) :=
  [("Deadline", "January 15th"),
   ("Lead", "Sarah Chen"),
   ("Budget", "$50,000"),
   ("Risk Level", "Low")]

/-- `FactCheckAuditor.extract_value`: lowercase the content, run the
category-specific pattern, strip the captured group. Returns `none` when the
content is falsy (empty) or the pattern does not occur. -/
def extract_value (content : String) (category : String) : Option String :=
  if content.data.isEmpty then none
  else
    let cl := content.data.map asciiLowerChar
    let raw :=
      if category == "Deadline" then
        searchWith captureNonPeriod ("deadline is ").data cl
      else if category == "Lead" then
        searchWith captureNonPeriod ("lead engineer is ").data cl
      else if category == "Budget" then
        searchWith captureNonPeriod ("budget is ").data cl
      else if category == "Risk Level" then
        searchWith captureWsNonPeriod ("risk level:").data cl
      else none
    raw.map (fun capd => String.mk (stripChars capd))

/-- The per-category classification of `FactCheckAuditor.audit` (lines
94-108): DATA MISSING when extraction failed, MATCH on case-insensitive
equality, otherwise MISMATCH escalated to CRITICAL WARNING for the
`Risk Level` category when the actual value lowercases to `medium`/`high`. -/
def classify (category expected : String) (actual : Option String) : Status :=
  match actual with
  | none => .DATA_MISSING
  | some a =>
    if asciiLower a == asciiLower expected then .MATCH
    else if category == "Risk Level" &&
        (asciiLower a == "medium" || asciiLower a == "high") then
      .CRITICAL_WARNING
    else .MISMATCH

/-- `FactCheckAuditor.audit`: one result per configured category, in order. -/
def audit (content : String) : List AuditResult :=
  expected_values.map (fun ce =>
    { category := ce.1
      expected := ce.2
      actual := extract_value content ce.1
      status := classify ce.1 ce.2 (extract_value content ce.1) })

/-! ### Report writer (`generate_report`) -/

/-- The status strings used in the report and log files. -/
def statusStr : Status → String
  | .MATCH => "MATCH"
  | .MISMATCH => "MISMATCH"
  | .CRITICAL_WARNING => "CRITICAL WARNING"
  | .DATA_MISSING => "DATA MISSING"

/-- `"=" * 60`. -/
def eq60 : String := String.mk (List.replicate 60 '=')

/-- `"-" * 60`. -/
def dash60 : String := String.mk (List.replicate 60 '-')

/-- Rendering of a result's `actual` field in an f-string. The `None` case
embeds Python's `str(None)`; audit-produced MISMATCH results always carry a
value, so it is unreachable in a real run. -/
def optStr : Option String → String
  | some s => s
  | none => "None"

/-- `actual.upper()` for a critical-warning result. Audit-produced critical
warnings always carry a value; on `none` Python would raise, modelled as the
empty rendering. -/
def optUpper : Option String → String
  | some s => asciiUpper s
  | none => ""

/-- The four summary counters of `generate_report` (lines 159-162), in
source order: matches, mismatches, missing, critical. -/
def summary_counts (results : List AuditResult) : Nat × Nat × Nat × Nat :=
  (results.countP (fun r => r.status == .MATCH),
   results.countP (fun r => r.status == .MISMATCH),
   results.countP (fun r => r.status == .DATA_MISSING),
   results.countP (fun r => r.status == .CRITICAL_WARNING))

/-- `generate_report` (lines 122-169): the `report_lines` list. -/
def generate_report_lines (results : List AuditResult) : List String :=
  let criticals := results.filter (fun r => r.status == .CRITICAL_WARNING)
  let counts := summary_counts results
  [eq60, "FACT-CHECK AUDIT REPORT", eq60,
   "Source File: project_specs.txt",
   "Report Generated: fact_check_auditor.py", eq60, ""]
  ++ (if criticals.isEmpty then [] else
        ["!!! CRITICAL WARNINGS DETECTED !!!", eq60]
        ++ criticals.flatMap (fun w =>
             ["⚠️  " ++ w.category ++ ": " ++ optUpper w.actual,
              "    Expected: " ++ w.expected])
        ++ [eq60, ""])
  ++ ["VALIDATION RESULTS:", dash60]
  ++ results.flatMap (fun r =>
       ["\nCategory: " ++ r.category,
        "Expected Value: " ++ r.expected,
        (match r.actual with
         | some a => "Actual Value: " ++ a
         | none => "Actual Value: NOT FOUND"),
        "Status: " ++ statusStr r.status,
        dash60])
  ++ ["", "SUMMARY:",
      "  MATCH: " ++ natToStr counts.1,
      "  MISMATCH: " ++ natToStr counts.2.1,
      "  CRITICAL WARNING: " ++ natToStr counts.2.2.2,
      "  DATA MISSING: " ++ natToStr counts.2.2.1,
      "", eq60]

/-- The report file content: `'\n'.join(report_lines)`. -/
def report_content (results : List AuditResult) : String :=
  String.intercalate "\n" (generate_report_lines results)

/-! ### History logger (`log_to_history`) -/

/-- `log_to_history` (lines 192-218): the `log_entry` line list for one run. -/
def build_log_entry (results : List AuditResult) (timestamp : String) : List String :=
  let matchCount := results.countP (fun r => r.status == .MATCH)
  let mismatches := results.filter (fun r => r.status == .MISMATCH)
  let missing := results.filter (fun r => r.status == .DATA_MISSING)
  let criticals := results.filter (fun r => r.status == .CRITICAL_WARNING)
  [dash60, "AUDIT RUN: " ++ timestamp, "Total Matches: " ++ natToStr matchCount]
  ++ (if criticals.isEmpty then [] else
        ("⚠️  CRITICAL WARNINGS: " ++ natToStr criticals.length)
        :: criticals.map (fun c =>
             "  - " ++ c.category ++ ": Expected '" ++ c.expected
               ++ "', Found '" ++ optUpper c.actual ++ "'"))
  ++ (if mismatches.isEmpty then
        (if criticals.isEmpty then ["Mismatches Found: None"] else [])
      else
        ("Mismatches Found: " ++ natToStr mismatches.length)
        :: mismatches.map (fun m =>
             "  - " ++ m.category ++ ": Expected '" ++ m.expected
               ++ "', Found '" ++ optStr m.actual ++ "'"))
  ++ (if missing.isEmpty then [] else
        ("Data Missing: " ++ natToStr missing.length)
        :: missing.map (fun m => "  - " ++ m.category ++ ": " ++ m.expected))
  ++ [dash60, ""]

/-- A history-log entry as written to the file: `'\n'.join(log_entry)`. -/
def log_content (results : List AuditResult) (timestamp : String) : String :=
  String.intercalate "\n" (build_log_entry results timestamp)

/-- The banner written when the history log file does not yet exist
(lines 226-229). -/
def audit_history_header : String :=
  eq60 ++ "\n" ++ "AUDIT HISTORY LOG\n" ++ eq60 ++ "\n\n"

/-- The file-content effect of `log_to_history` (lines 222-230): `prior` is
the existing log content (`none` when the file does not exist, in which case
mode `'w'` first writes the banner); the entry is appended. -/
def log_to_history_file (prior : Option String) (entry : String) : String :=
  match prior with
  | none => audit_history_header ++ entry
  | some p => p ++ entry

/-! ### The full run (`FactCheckAuditor.run`) as a state transformer -/

/-- The state of the input file: absent, present but unreadable (any I/O
failure while reading), or present with content. -/
inductive SourceState where
  | missing
  | unreadable
  | present (content : String)
deriving DecidableEq

/-- The file system touched by one run. -/
structure FS where
  source : SourceState
  report : Option String
  reportWritable : Bool
  history : Option String
  historyWritable : Bool
deriving DecidableEq

/-- `load_file` (lines 31-47): FileNotFound when the path does not exist,
ReadError on an I/O failure, otherwise the content; errors are reported (the
message) and make the method return False. -/
def load_file : SourceState → Except String String
  | .missing => .error "Error: File 'project_specs.txt' does not exist."
  | .unreadable => .error "Error reading file"
  | .present c => .ok c

/-- The file effect plus return value of `generate_report` (lines 173-180):
overwrite the report file, or report failure and return False. -/
def generate_report_fs (fs : FS) (results : List AuditResult) : FS × Bool :=
  if fs.reportWritable then
    ({ fs with report := some (report_content results) }, true)
  else (fs, false)

/-- The file effect plus return value of `log_to_history` (lines 222-236). -/
def log_to_history_fs (fs : FS) (results : List AuditResult) (timestamp : String) :
    FS × Bool :=
  if fs.historyWritable then
    ({ fs with history := some (log_to_history_file fs.history
                                  (log_content results timestamp)) }, true)
  else (fs, false)

/-- `run` (lines 238-253): load, short-circuiting on failure; audit;
generate the report and append to the history, ignoring both return values;
return True. -/
def run (fs : FS) (timestamp : String) : Bool × FS :=
  match load_file fs.source with
  | .error _ => (false, fs)
  | .ok content =>
    let results := audit content
    let fs1 := (generate_report_fs fs results).1
    let fs2 := (log_to_history_fs fs1 results timestamp).1
    (true, fs2)

end Auditor

namespace Scanner

/-! ### The directory scanner (`src/file_scanner.py`)

`format_size` repeatedly divides a file size by `1024.0`. A natural size
below `2^53` and all its quotients by powers of 1024 are exactly
representable as IEEE-754 doubles (dividing by `2^10` only shifts the
exponent), so the float state of the loop is exactly the dyadic rational
`num / 2^sh`; the model carries that pair of naturals. `%.2f` formatting
correctly rounds the exact value to two decimals with ties to even. -/

/-- Python's `f"{x:.2f}"` for the nonnegative dyadic value `num / 2^sh`:
round `num*100 / 2^sh` to the nearest integer (ties to even), then print
with two decimal digits. -/
def fmt2 (num sh : Nat) : String :=
  let a := num * 100
  let f := a / 2 ^ sh
  let r := a % 2 ^ sh
  let n := if 2 * r < 2 ^ sh then f
           else if 2 ^ sh < 2 * r then f + 1
           else if f % 2 = 0 then f else f + 1
  Auditor.natToStr (n / 100) ++ "." ++
    (if n % 100 < 10 then "0" else "") ++ Auditor.natToStr (n % 100)

/-- The `for unit in [...]` loop of `format_size`: the running float is the
dyadic value `num / 2^sh`; the test `size_bytes < 1024.0` is
`num < 1024 * 2^sh` and the update `size_bytes /= 1024.0` is `sh := sh + 10`;
fall through to PB. -/
def format_size_loop : List String → Nat → Nat → String
  | [], num, sh => fmt2 num sh ++ " PB"
  | u :: us, num, sh =>
    if num < 1024 * 2 ^ sh then fmt2 num sh ++ " " ++ u
    else format_size_loop us num (sh + 10)

/-- `format_size` from `file_scanner.py`, on a natural byte count. -/
def format_size (size_bytes : Nat) : String :=
  format_size_loop ["B", "KB", "MB", "GB", "TB"] size_bytes 0

/-- Python's `<=` on strings: lexicographic comparison by code point. -/
def pyStrLe : List Char → List Char → Bool
  | [], _ => true
  | _ :: _, [] => false
  | a :: as, b :: bs =>
    if a.toNat < b.toNat then true
    else if b.toNat < a.toNat then false
    else pyStrLe as bs

/-- Insert into a sorted list, before the first element not `le`-below the
new one — the insertion step of a stable sort. -/
def orderedInsertB (le : α → α → Bool) (a : α) : List α → List α
  | [] => [a]
  | b :: l => if le a b then a :: b :: l else b :: orderedInsertB le a l

/-- Stable insertion sort. Python's `list.sort` is stable, and any two stable
sorts agree for a total preorder comparison, so this models
`files.sort(key=lambda x: x.name.lower())`. -/
def insertionSortB (le : α → α → Bool) : List α → List α
  | [] => []
  | a :: l => orderedInsertB le a (insertionSortB le l)

/-- A directory entry as seen by `scan_directory`: a file name and its size,
`none` when `file.stat()` raises. -/
structure FileEntry where
  name : String
  size : Option Nat
deriving DecidableEq, Repr

/-- One printed row of the scan: the file name and the size column, which is
`format_size(size)` on success and `"Error"` when `stat` raised. -/
structure ScanRow where
  name : String
  sizeStr : String
deriving DecidableEq, Repr

/-- The body loop of `scan_directory` (lines 50-59): running left over the
sorted file list, emit one row per file and accumulate `total_size` over the
files whose `stat` succeeded. -/
def scanRows : List FileEntry → List ScanRow × Nat
  | [] => ([], 0)
  | f :: rest =>
    let (rs, t) := scanRows rest
    match f.size with
    | some s => ({ name := f.name, sizeStr := format_size s } :: rs, s + t)
    | none => ({ name := f.name, sizeStr := "Error" } :: rs, t)

/-- The output of a successful `scan_directory` run: the per-file rows in
printed order, the formatted `Total:` size, and the `Total files:` count. -/
structure ScanOutput where
  rows : List ScanRow
  totalStr : String
  totalFiles : Nat
deriving DecidableEq, Repr

/-- `scan_directory` on a nonempty directory listing: sort the files by
lowercased name (Python's stable `list.sort`), print each with its size,
then the total of the readable sizes and the file count. -/
def scan_directory (files : List FileEntry) : ScanOutput :=
  let sorted := insertionSortB
    (fun a b => pyStrLe (Auditor.asciiLower a.name).data (Auditor.asciiLower b.name).data)
    files
  let (rows, total) := scanRows sorted
  { rows := rows, totalStr := format_size total, totalFiles := files.length }

end Scanner

/-! ### General lemmas -/

theorem natDigitsAux_digits (fuel n : Nat) :
    ∀ c ∈ Auditor.natDigitsAux fuel n, c.isDigit := by
  induction fuel generalizing n with
  | zero => intro c hc; simp [Auditor.natDigitsAux] at hc
  | succ fuel ih =>
    intro c hc
    rw [Auditor.natDigitsAux] at hc
    by_cases h : n < 10
    · simp [h] at hc
      subst hc
      interval_cases n <;> decide
    · simp [h, List.mem_append] at hc
      rcases hc with hc | hc
      · exact ih _ _ hc
      · subst hc
        have h10 : n % 10 < 10 := Nat.mod_lt _ (by decide)
        interval_cases hm : n % 10 <;> decide

theorem natToStr_ne_None (n : Nat) : Auditor.natToStr n ≠ "None" := by
  intro h
  have hd : (Auditor.natToStr n).data = "None".data := congrArg String.data h
  have : 'o' ∈ (Auditor.natToStr n).data := by rw [hd]; decide
  exact absurd (natDigitsAux_digits (n + 1) n 'o' this) (by decide)

theorem append_ne_of_head_ne (p s t : String) (hp : p.data ≠ [])
    (h : p.data.head? ≠ t.data.head?) : p ++ s ≠ t := by
  intro he
  apply h
  rcases hpd : p.data with _ | ⟨c, cs⟩
  · exact absurd hpd hp
  · have hds := congrArg String.data he
    rw [show (p ++ s).data = p.data ++ s.data from rfl, hpd] at hds
    rw [← hds]
    rfl

theorem str_append_cancel (p a b : String) (h : p ++ a = p ++ b) : a = b := by
  have hd : p.data ++ a.data = p.data ++ b.data := congrArg String.data h
  have hab : a.data = b.data := List.append_cancel_left hd
  cases a; cases b
  simp only at hab
  rw [hab]

theorem mismatches_header_ne (n : Nat) :
    "Mismatches Found: " ++ Auditor.natToStr n ≠ "Mismatches Found: None" := by
  intro h
  rw [show ("Mismatches Found: None" : String)
      = "Mismatches Found: " ++ "None" from rfl] at h
  exact natToStr_ne_None n (str_append_cancel _ _ _ h)

theorem status_partition (rs : List Auditor.AuditResult) :
    rs.countP (fun r => r.status == .MATCH)
      + rs.countP (fun r => r.status == .MISMATCH)
      + rs.countP (fun r => r.status == .CRITICAL_WARNING)
      + rs.countP (fun r => r.status == .DATA_MISSING) = rs.length := by
  induction rs with
  | nil => rfl
  | cons r rs ih =>
    rcases r with ⟨c, e, a, s⟩
    cases s <;> simp [List.countP_cons] <;> omega

theorem orderedInsertB_perm {α : Type} (le : α → α → Bool) (a : α) (l : List α) :
    (Scanner.orderedInsertB le a l).Perm (a :: l) := by
  induction l with
  | nil => exact List.Perm.refl _
  | cons b l ih =>
    rw [Scanner.orderedInsertB]
    by_cases h : le a b
    · simp [h]
    · simp only [h, if_false, Bool.false_eq_true]
      exact (ih.cons b).trans (List.Perm.swap a b l)

theorem insertionSortB_perm {α : Type} (le : α → α → Bool) (l : List α) :
    (Scanner.insertionSortB le l).Perm l := by
  induction l with
  | nil => exact List.Perm.refl _
  | cons a l ih =>
    rw [Scanner.insertionSortB]
    exact (orderedInsertB_perm le a _).trans (ih.cons a)

theorem scanRows_length (l : List Scanner.FileEntry) :
    (Scanner.scanRows l).1.length = l.length := by
  induction l with
  | nil => rfl
  | cons f rest ih =>
    rw [Scanner.scanRows]
    rcases f with ⟨n, s⟩
    cases s <;> simp_all

theorem scanRows_total (l : List Scanner.FileEntry) :
    (Scanner.scanRows l).2 = (l.filterMap Scanner.FileEntry.size).sum := by
  induction l with
  | nil => rfl
  | cons f rest ih =>
    rw [Scanner.scanRows]
    rcases f with ⟨n, s⟩
    cases s <;> simp_all [Scanner.FileEntry.size]

theorem scanRows_error_mem (l : List Scanner.FileEntry) (f : Scanner.FileEntry)
    (hf : f ∈ l) (hs : f.size = none) :
    ({ name := f.name, sizeStr := "Error" } : Scanner.ScanRow) ∈ (Scanner.scanRows l).1 := by
  induction l with
  | nil => simp at hf
  | cons g rest ih =>
    rw [Scanner.scanRows]
    rcases List.mem_cons.mp hf with h | h
    · subst h
      rcases f with ⟨n, s⟩
      simp only at hs
      subst hs
      simp
    · rcases g with ⟨n, s⟩
      cases s <;> simpa using Or.inr (ih h)

/-! ### The claims -/

/-- Claim C1: in every audit run, a result whose extracted value does not
case-insensitively equal the expected value gets CRITICAL WARNING when the
category is `Risk Level` and the value lowercases to `medium` or `high`, and
plain MISMATCH for every other category or any other risk value. -/
theorem C1_risk_escalation (content : String) (r : Auditor.AuditResult)
    (hr : r ∈ Auditor.audit content) (a : String) (ha : r.actual = some a)
    (hne : Auditor.asciiLower a ≠ Auditor.asciiLower r.expected) :
    ((r.category = "Risk Level" ∧
        (Auditor.asciiLower a = "medium" ∨ Auditor.asciiLower a = "high")) →
      r.status = .CRITICAL_WARNING)
    ∧ ((r.category ≠ "Risk Level" ∨
        (Auditor.asciiLower a ≠ "medium" ∧ Auditor.asciiLower a ≠ "high")) →
      r.status = .MISMATCH) := by
  simp [Auditor.audit, Auditor.expected_values] at hr
  rcases hr with h | h | h | h <;> subst h <;> simp_all [Auditor.classify]

/-- Witness for C1: the risk result of a run over `"Risk Level: High."`-style
content is escalated. -/
theorem C1_risk_escalation_witness :
    (⟨"Risk Level", "Low", some "high", .CRITICAL_WARNING⟩ : Auditor.AuditResult).status
      = .CRITICAL_WARNING :=
  (C1_risk_escalation "Risk Level: High."
    ⟨"Risk Level", "Low", some "high", .CRITICAL_WARNING⟩ (by decide)
    "high" rfl (by decide)).1 ⟨rfl, Or.inr (by decide)⟩

/-- Claim C2 (counterexample): for a directory of a 500-byte and a 2048-byte
file, the total line is not formatted as "2.44 KB" — 2548 bytes is
2.48828125 KB, which `%.2f` renders as "2.49". -/
theorem C2_total_counterexample :
    (Scanner.scan_directory [⟨"b.bin", some 2048⟩, ⟨"a.txt", some 500⟩]).totalStr
      ≠ "2.44 KB" := by decide

/-- Claim C2 (amended): scanning a directory with exactly a 500-byte file and
a 2048-byte file prints "500.00 B" and "2.00 KB", a total of "2.49 KB"
(2548 bytes), and lists the files alphabetically by name. -/
theorem C2_two_file_scan :
    Scanner.scan_directory [⟨"b.bin", some 2048⟩, ⟨"a.txt", some 500⟩] =
      { rows := [⟨"a.txt", "500.00 B"⟩, ⟨"b.bin", "2.00 KB"⟩],
        totalStr := "2.49 KB", totalFiles := 2 } := by decide

/-- Claim C3: the example content audited against the fixed expected values
yields MISMATCH, MATCH, MATCH and CRITICAL WARNING, the risk value
upper-casing to "HIGH". -/
theorem C3_example_audit :
    Auditor.audit "The deadline is March 3rd. The lead engineer is Sarah Chen. The budget is $50,000. Risk Level: High."
      = [⟨"Deadline", "January 15th", some "march 3rd", .MISMATCH⟩,
         ⟨"Lead", "Sarah Chen", some "sarah chen", .MATCH⟩,
         ⟨"Budget", "$50,000", some "$50,000", .MATCH⟩,
         ⟨"Risk Level", "Low", some "high", .CRITICAL_WARNING⟩]
    ∧ Auditor.asciiUpper "high" = "HIGH" := by decide

/-- Claim C4: in every audit run, a category whose extraction produced no
value gets DATA MISSING, and one whose extracted value case-insensitively
equals the expected value gets MATCH. -/
theorem C4_missing_and_match (content : String) (r : Auditor.AuditResult)
    (hr : r ∈ Auditor.audit content) :
    (r.actual = none → r.status = .DATA_MISSING)
    ∧ (∀ a, r.actual = some a →
        Auditor.asciiLower a = Auditor.asciiLower r.expected → r.status = .MATCH) := by
  simp [Auditor.audit, Auditor.expected_values] at hr
  rcases hr with h | h | h | h <;> subst h <;> simp_all [Auditor.classify]

/-- Witness for C4: on empty content the deadline result is DATA MISSING,
and on matching content the budget result is MATCH. -/
theorem C4_missing_and_match_witness :
    (⟨"Deadline", "January 15th", none, .DATA_MISSING⟩ : Auditor.AuditResult).status
        = .DATA_MISSING
    ∧ (⟨"Budget", "$50,000", some "$50,000", .MATCH⟩ : Auditor.AuditResult).status
        = .MATCH :=
  ⟨(C4_missing_and_match ""
      ⟨"Deadline", "January 15th", none, .DATA_MISSING⟩ (by decide)).1 rfl,
   (C4_missing_and_match "The budget is $50,000."
      ⟨"Budget", "$50,000", some "$50,000", .MATCH⟩ (by decide)).2
     "$50,000" rfl (by decide)⟩

/-- Claim C5: for every run, the four summary count lines written in the
report each show the number of results carrying that status, and the four
counts sum to the number of configured categories. -/
theorem C5_summary_counts (content : String) :
    (("  MATCH: " ++ Auditor.natToStr
        ((Auditor.audit content).filter (fun r => r.status == .MATCH)).length)
      ∈ Auditor.generate_report_lines (Auditor.audit content))
    ∧ (("  MISMATCH: " ++ Auditor.natToStr
        ((Auditor.audit content).filter (fun r => r.status == .MISMATCH)).length)
      ∈ Auditor.generate_report_lines (Auditor.audit content))
    ∧ (("  CRITICAL WARNING: " ++ Auditor.natToStr
        ((Auditor.audit content).filter (fun r => r.status == .CRITICAL_WARNING)).length)
      ∈ Auditor.generate_report_lines (Auditor.audit content))
    ∧ (("  DATA MISSING: " ++ Auditor.natToStr
        ((Auditor.audit content).filter (fun r => r.status == .DATA_MISSING)).length)
      ∈ Auditor.generate_report_lines (Auditor.audit content))
    ∧ ((Auditor.audit content).filter (fun r => r.status == .MATCH)).length
      + ((Auditor.audit content).filter (fun r => r.status == .MISMATCH)).length
      + ((Auditor.audit content).filter (fun r => r.status == .CRITICAL_WARNING)).length
      + ((Auditor.audit content).filter (fun r => r.status == .DATA_MISSING)).length
      = Auditor.expected_values.length := by
  refine ⟨?_, ?_, ?_, ?_, ?_⟩ <;>
    first
    | simp [Auditor.generate_report_lines, Auditor.summary_counts,
        List.countP_eq_length_filter]
    | · simp only [← List.countP_eq_length_filter]
        rw [status_partition]
        simp [Auditor.audit]

/-- Claim C6: the history log is append-only — appending a run's entry to an
existing log keeps the prior bytes as an unchanged prefix, a missing log file
first gets the header banner, and after two consecutive runs the first
entry's bytes are intact. -/
theorem C6_history_append_only :
    (∀ prior entry, Auditor.log_to_history_file (some prior) entry = prior ++ entry)
    ∧ (∀ entry, Auditor.log_to_history_file none entry
        = Auditor.audit_history_header ++ entry)
    ∧ (∀ e1 e2, Auditor.log_to_history_file (some (Auditor.log_to_history_file none e1)) e2
        = (Auditor.audit_history_header ++ e1) ++ e2) :=
  ⟨fun _ _ => rfl, fun _ => rfl, fun _ _ => rfl⟩

/-- Claim C7: a history-log entry contains the line "Mismatches Found: None"
iff the run had zero MISMATCH results and zero CRITICAL WARNING results. -/
theorem C7_mismatches_none_line (results : List Auditor.AuditResult) (ts : String) :
    "Mismatches Found: None" ∈ Auditor.build_log_entry results ts
    ↔ (results.countP (fun r => r.status == .MISMATCH) = 0
       ∧ results.countP (fun r => r.status == .CRITICAL_WARNING) = 0) := by
  have hconv : ∀ p : Auditor.AuditResult → Bool,
      results.countP p = 0 ↔ (results.filter p).isEmpty = true := by
    intro p
    simp [List.countP_eq_length_filter, List.isEmpty_iff, List.length_eq_zero]
  rw [hconv, hconv]
  have hAudit : ∀ s : String, "AUDIT RUN: " ++ s ≠ "Mismatches Found: None" :=
    fun s => append_ne_of_head_ne _ s _ (by decide) (by decide)
  have hAudit2 : ∀ s : String, "Mismatches Found: None" ≠ "AUDIT RUN: " ++ s :=
    fun s => (hAudit s).symm
  have hTotal : ∀ n, "Total Matches: " ++ Auditor.natToStr n ≠ "Mismatches Found: None" :=
    fun n => append_ne_of_head_ne _ _ _ (by decide) (by decide)
  have hTotal2 : ∀ n, "Mismatches Found: None" ≠ "Total Matches: " ++ Auditor.natToStr n :=
    fun n => (hTotal n).symm
  have hCrit : ∀ n, "⚠️  CRITICAL WARNINGS: " ++ Auditor.natToStr n ≠ "Mismatches Found: None" :=
    fun n => append_ne_of_head_ne _ _ _ (by decide) (by decide)
  have hCrit2 : ∀ n, "Mismatches Found: None" ≠ "⚠️  CRITICAL WARNINGS: " ++ Auditor.natToStr n :=
    fun n => (hCrit n).symm
  have hItem : ∀ s : String, "  - " ++ s ≠ "Mismatches Found: None" :=
    fun s => append_ne_of_head_ne _ s _ (by decide) (by decide)
  have hItem2 : ∀ s : String, "Mismatches Found: None" ≠ "  - " ++ s :=
    fun s => (hItem s).symm
  have hMissing : ∀ n, "Data Missing: " ++ Auditor.natToStr n ≠ "Mismatches Found: None" :=
    fun n => append_ne_of_head_ne _ _ _ (by decide) (by decide)
  have hMissing2 : ∀ n, "Mismatches Found: None" ≠ "Data Missing: " ++ Auditor.natToStr n :=
    fun n => (hMissing n).symm
  have hHdr : ∀ n, "Mismatches Found: None" ≠ "Mismatches Found: " ++ Auditor.natToStr n :=
    fun n => (mismatches_header_ne n).symm
  have hDash : ("Mismatches Found: None" : String) ≠ Auditor.dash60 := by decide
  have hEmpty : ("Mismatches Found: None" : String) ≠ "" := by decide
  rw [Auditor.build_log_entry]
  constructor
  · intro h
    simp only [List.mem_append] at h
    by_cases hC : (results.filter (fun r => r.status == Auditor.Status.CRITICAL_WARNING)).isEmpty = true
    · by_cases hM : (results.filter (fun r => r.status == Auditor.Status.MISMATCH)).isEmpty = true
      · exact ⟨hM, hC⟩
      · exfalso
        simp only [hC, hM, if_true, if_false, Bool.not_eq_true] at h
        simp [String.append_assoc, hDash, hEmpty, hAudit, hAudit2, hTotal, hTotal2, hCrit,
          hCrit2, hItem, hItem2, hMissing, hMissing2, hHdr, mismatches_header_ne] at h
    · exfalso
      simp only [hC, if_true, if_false, Bool.not_eq_true] at h
      simp [String.append_assoc, hDash, hEmpty, hAudit, hAudit2, hTotal, hTotal2, hCrit,
        hCrit2, hItem, hItem2, hMissing, hMissing2, hHdr, mismatches_header_ne] at h
  · intro hmc
    simp [hmc.1, hmc.2, List.mem_append]

/-- Claim C8: when the input file is missing or unreadable, `load_file`
reports the corresponding error and `run` returns failure with the file
system untouched — no report written, no history entry appended. -/
theorem C8_load_failure_short_circuits (fs : Auditor.FS) (ts : String) :
    (fs.source = .missing →
      Auditor.load_file fs.source
          = .error "Error: File 'project_specs.txt' does not exist."
        ∧ Auditor.run fs ts = (false, fs))
    ∧ (fs.source = .unreadable →
      Auditor.load_file fs.source = .error "Error reading file"
        ∧ Auditor.run fs ts = (false, fs)) := by
  constructor <;> intro h <;>
    exact ⟨by rw [h]; rfl, by simp [Auditor.run, Auditor.load_file, h]⟩

/-- Witness for C8: a run over a missing file and a run over an unreadable
file both fail and leave the file system unchanged. -/
theorem C8_load_failure_witness :
    Auditor.run ⟨.missing, none, true, none, true⟩ "t"
        = (false, ⟨.missing, none, true, none, true⟩)
    ∧ Auditor.run ⟨.unreadable, none, true, none, true⟩ "t"
        = (false, ⟨.unreadable, none, true, none, true⟩) :=
  ⟨((C8_load_failure_short_circuits ⟨.missing, none, true, none, true⟩ "t").1 rfl).2,
   ((C8_load_failure_short_circuits ⟨.unreadable, none, true, none, true⟩ "t").2 rfl).2⟩

/-- Claim C9: a failure to write the report does not abort the run — the run
still returns success, the report file keeps its prior content, and when the
history log is writable the entry is still appended. -/
theorem C9_report_failure_nonfatal (fs : Auditor.FS) (ts content : String)
    (hs : fs.source = .present content) (hw : fs.reportWritable = false) :
    (Auditor.run fs ts).1 = true
    ∧ (Auditor.run fs ts).2.report = fs.report
    ∧ (fs.historyWritable = true →
        (Auditor.run fs ts).2.history
          = some (Auditor.log_to_history_file fs.history
              (Auditor.log_content (Auditor.audit content) ts))) := by
  refine ⟨?_, ?_, ?_⟩ <;>
    simp [Auditor.run, Auditor.load_file, hs, Auditor.generate_report_fs, hw,
      Auditor.log_to_history_fs] <;>
    cases hh : fs.historyWritable <;> simp [hh]

/-- Witness for C9: with an unwritable report file the run still succeeds
and appends to the (fresh) history log. -/
theorem C9_report_failure_witness :
    (Auditor.run ⟨.present "x", none, false, none, true⟩ "t").1 = true
    ∧ (Auditor.run ⟨.present "x", none, false, none, true⟩ "t").2.report = none
    ∧ (Auditor.run ⟨.present "x", none, false, none, true⟩ "t").2.history
        = some (Auditor.log_to_history_file none
            (Auditor.log_content (Auditor.audit "x") "t")) := by
  have h := C9_report_failure_nonfatal ⟨.present "x", none, false, none, true⟩ "t" "x" rfl rfl
  exact ⟨h.1, h.2.1, h.2.2 rfl⟩

/-- Claim C10: a file whose `stat` fails does not stop the scan — its row
shows "Error", its size contributes nothing to the total, and it still
counts toward the reported number of files. -/
theorem C10_stat_failure_handling (files : List Scanner.FileEntry)
    (f : Scanner.FileEntry) (hf : f ∈ files) (hsize : f.size = none) :
    ({ name := f.name, sizeStr := "Error" } : Scanner.ScanRow)
        ∈ (Scanner.scan_directory files).rows
    ∧ (Scanner.scan_directory files).rows.length = files.length
    ∧ (Scanner.scan_directory files).totalStr
        = Scanner.format_size (files.filterMap Scanner.FileEntry.size).sum
    ∧ (Scanner.scan_directory files).totalFiles = files.length := by
  have hperm := insertionSortB_perm
    (fun a b : Scanner.FileEntry =>
      Scanner.pyStrLe (Auditor.asciiLower a.name).data (Auditor.asciiLower b.name).data) files
  refine ⟨?_, ?_, ?_, rfl⟩
  · exact scanRows_error_mem _ f (hperm.mem_iff.mpr hf) hsize
  · rw [show (Scanner.scan_directory files).rows = (Scanner.scanRows _).1 from rfl,
      scanRows_length]
    exact hperm.length_eq
  · rw [show (Scanner.scan_directory files).totalStr
        = Scanner.format_size (Scanner.scanRows _).2 from rfl, scanRows_total]
    congr 1
    exact (hperm.filterMap Scanner.FileEntry.size).sum_eq

/-- Witness for C10: scanning two files where one `stat` fails. -/
theorem C10_stat_failure_witness :
    ({ name := "x", sizeStr := "Error" } : Scanner.ScanRow)
        ∈ (Scanner.scan_directory [⟨"b", some 2048⟩, ⟨"x", none⟩]).rows
    ∧ (Scanner.scan_directory [⟨"b", some 2048⟩, ⟨"x", none⟩]).rows.length = 2
    ∧ (Scanner.scan_directory [⟨"b", some 2048⟩, ⟨"x", none⟩]).totalStr
        = Scanner.format_size 2048
    ∧ (Scanner.scan_directory [⟨"b", some 2048⟩, ⟨"x", none⟩]).totalFiles = 2 :=
  C10_stat_failure_handling [⟨"b", some 2048⟩, ⟨"x", none⟩] ⟨"x", none⟩ (by decide) rfl
